import Mathlib

/-!
Verification of the convex sensor-placement exploration planner
(`convexSPPExplorator::getExplorationPath` and its helper
`convexSPPExplorator::solveOptimizationProblem` in
`ipa_room_exploration/common/src/convex_sensor_placement_explorator.cpp`).

The C++ code is shallowly embedded below.  Conventions of the embedding:

* Pixel coordinates and matrix indices are `Nat`; all real-valued
  quantities (`double`/`float` in the source) are `ℚ`.  The source's
  floating-point constants are mapped to the exact rational value of the
  corresponding IEEE-754 double where that value matters
  (`euler_constant = std::exp(1.0)`).
* External collaborators (the QSopt LP solver, OpenCV's
  `pointPolygonTest` and `LineIterator`, Eigen's trigonometric rotation
  of the footprint-centroid vector, and the transcendental functions
  `acos`/`sqrt`) are abstracted as fields of an `ExtModel` record.  The
  planner's own control flow, arithmetic and data flow are embedded
  concretely.
* `√` of a rational is not rational, so the range gate of the
  visibility test (source line 251, a comparison of a Euclidean norm
  against two bounds) is embedded by comparing squared quantities, which
  is equivalent for a nonnegative resolution (`map_resolution > 0`);
  the sign analysis is made explicit in `rangeGate`.
* The IEEE semantics of the unguarded division `dot/abs`
  (source line 258) is embedded with `Option ℚ`: `none` stands for the
  NaN produced when the denominator is exactly zero (there the numerator
  is also zero, so the result is 0/0 = NaN, not ±inf).  All comparisons
  with NaN are false, which is reflected in `clampQuotient`/`angleLe`.
-/

namespace ConvexSPP

/-- One candidate sensing pose: `geometry_msgs::Pose2D` with fields
`x`, `y` (grid coordinates) and `theta` (heading). -/
structure Pose2D where
  x : ℚ
  y : ℚ
  theta : ℚ
deriving DecidableEq, Repr

/-! ### I. Discretization (source lines 170–191) -/

/-- The coordinates visited by
`for(size_t c = lo + 0.5*cell_size; c <= hi; c += cell_size)`
(source lines 173–174) for integer bounds: they start at
`lo + cell_size/2` (the `size_t` truncation of `lo + 0.5*cell_size`)
and step by `cell_size` while `≤ hi`.  A zero `cell_size` makes the
source loop run forever; the embedding returns `[]` for that case and
theorems about the discretizer assume `0 < cellSize`. -/
def gridCoords (lo hi cellSize : Nat) : List Nat :=
  if cellSize = 0 then []
  else if lo + cellSize / 2 ≤ hi then
    (List.range ((hi - (lo + cellSize / 2)) / cellSize + 1)).map
      (fun k => lo + cellSize / 2 + k * cellSize)
  else []

/-- Source lines 172–176: every grid point spaced `cell_size` apart
inside the bounding box is kept as a cell center iff the map marks it
free (pixel value 255).  The outer loop runs over `y`, the inner over
`x`, so the resulting order is row-major.  A cell is the pair `(x, y)`
exactly as pushed by `cell_centers.push_back(cv::Point(x,y))`. -/
def cellCenters (roomMap : Nat → Nat → Nat)
    (minX minY maxX maxY cellSize : Nat) : List (Nat × Nat) :=
  (gridCoords minY maxY cellSize).flatMap (fun y =>
    (gridCoords minX maxX cellSize).filterMap (fun x =>
      if roomMap y x = 255 then some (x, y) else none))

/-- Source line 182: `for(double angle=0; angle<2.0*PI; angle+=delta_theta)`.
Over exact rationals the loop visits `k * deltaTheta` for every `k` with
`k * deltaTheta < twoPi`, i.e. the first `⌈twoPi/deltaTheta⌉` multiples.
A nonpositive `deltaTheta` makes the source loop run forever; the
embedding returns `[]` for that case. -/
def angleList (deltaTheta twoPi : ℚ) : List ℚ :=
  if 0 < deltaTheta then
    (List.range (Nat.ceil (twoPi / deltaTheta))).map
      (fun k => (k : ℚ) * deltaTheta)
  else []

/-- Source lines 179–191: one candidate pose per cell center and angle,
cells outer, angles inner (ascending), with `pose.x`/`pose.y` the cell's
pixel coordinates. -/
def candidatePoses (cells : List (Nat × Nat)) (angles : List ℚ) :
    List Pose2D :=
  cells.flatMap (fun c =>
    angles.map (fun a => ⟨(c.1 : ℚ), (c.2 : ℚ), a⟩))

/-! ### The optimization-problem construction
(`solveOptimizationProblem`, source lines 10–139) -/

/-- The problem handed to the external QSopt solver: one variable per
column with bounds `[0,1]`, per-variable objective costs, one covering
constraint (`≥ 1`) per matrix row listing the columns holding a 1, and
a flag recording whether the file round trip that turns the LP into an
integer program was performed (source lines 53–97: exactly when no
weight vector is passed). -/
structure LPProblem where
  costs : List ℚ
  rows : List (List Nat)
  integer : Bool
deriving DecidableEq, Repr

/-- Source lines 36–39: the indices of the columns holding a 1 in a
row of the visibility matrix, in ascending column order. -/
def onesIndices (row : List Nat) : List Nat :=
  (List.range row.length).filter (fun j => row.getD j 0 = 1)

/-- Source lines 14–97: build the problem for `n` variables.  With a
weight vector `W` the cost of variable `i` is `W[i]` and the problem
stays a continuous relaxation; with `W = none` every cost is `1.0` and
the problem is converted to an integer program (source lines 23–26 and
51–97). -/
def buildProblem (n : Nat) (W : Option (List ℚ))
    (Vrows : List (List Nat)) : LPProblem :=
  { costs :=
      match W with
      | some w => (List.range n).map (fun i => w.getD i 0)
      | none => List.replicate n 1
    rows := Vrows.map onesIndices
    integer := W.isNone }

/-- The external collaborators of the planner, abstracted: `sqrtFn`
models `std::sqrt` on finite nonnegative arguments (used only through
the product of the two vector norms), `acosFn` models `std::acos` on
finite clamped arguments, `rotMid` models `R(θ) * robot_to_fow_middlepoint_vector`
(source line 235, a rotation through `sin`/`cos`), `inPoly` models
`cv::pointPolygonTest(transformed_fow_points, neighbor, false) >= 0`
(source line 269), `hitObstacle` models the Bresenham line trace of
source lines 273–277, and `solveLP` models the QSopt solve-and-retrieve
of source lines 100–135. -/
structure ExtModel where
  sqrtFn : ℚ → ℚ
  acosFn : ℚ → ℚ
  rotMid : ℚ → ℚ × ℚ
  inPoly : Pose2D → Nat × Nat → Bool
  hitObstacle : Pose2D → Nat × Nat → Bool
  solveLP : LPProblem → List ℚ

/-! ### II. Visibility matrix (source lines 199–298) -/

/-- Source line 247: the vector from the pose to the neighbor cell. -/
def poseToNeighbor (p : Pose2D) (c : Nat × Nat) : ℚ × ℚ :=
  ((c.1 : ℚ) - p.x, (c.2 : ℚ) - p.y)

/-- The dot product of source line 256. -/
def dot2 (a b : ℚ × ℚ) : ℚ := a.1 * b.1 + a.2 * b.2

/-- The squared Euclidean norm of a 2-vector. -/
def normSq (a : ℚ × ℚ) : ℚ := a.1 * a.1 + a.2 * a.2

/-- Source line 251:
`distance >= smallest_robot_to_fow_distance/map_resolution &&
 distance <= largest_robot_to_fow_distance/map_resolution`
with `distance = ‖pose_to_neighbor‖ = √distSq ≥ 0`.  Embedded through
squares: for any rational bound `b`, `√d ≥ b ↔ (b ≤ 0 ∨ b² ≤ d)` and
`√d ≤ b ↔ (0 ≤ b ∧ d ≤ b²)`. -/
def rangeGate (distSq smallest largest res : ℚ) : Bool :=
  (decide (smallest / res ≤ 0) || decide ((smallest / res) ^ 2 ≤ distSq)) &&
  (decide (0 ≤ largest / res) && decide (distSq ≤ (largest / res) ^ 2))

/-- Source lines 256–258: `float dot = mᵀ·v; float abs = ‖m‖*‖v‖;
float quotient = dot/abs;` with no special case for `abs == 0`.  When
`abs = 0` (equivalently `‖m‖²·‖v‖² = 0`) the numerator is also 0, so
the division produces NaN, embedded as `none`; otherwise
`‖m‖·‖v‖ = √(‖m‖²·‖v‖²)` is taken through the abstract `sqrtFn`. -/
def quotientRaw (ext : ExtModel) (m v : ℚ × ℚ) : Option ℚ :=
  if normSq m * normSq v = 0 then none
  else some (dot2 m v / ext.sqrtFn (normSq m * normSq v))

/-- Source lines 259–262: `if(quotient > 1) quotient = 1; else
if(quotient < -1) quotient = -1;`.  Both comparisons are false for NaN,
so NaN passes through unchanged. -/
def clampQuotient : Option ℚ → Option ℚ
  | none => none
  | some q => if 1 < q then some 1 else if q < -1 then some (-1) else some q

/-- Source line 263: `float angle = std::acos(quotient)`; `acos` of NaN
is NaN. -/
def angleOf (ext : ExtModel) : Option ℚ → Option ℚ
  | none => none
  | some q => some (ext.acosFn q)

/-- Source line 267: `angle <= max_fow_angle`; false when the angle is
NaN. -/
def angleLe : Option ℚ → ℚ → Bool
  | none, _ => false
  | some a, maxAngle => decide (a ≤ maxAngle)

/-- Source lines 243–295: the value written to `V[neighbor][pose]` by
the per-cell visibility test — the range gate, then the angle gate
against the rotated robot-to-footprint-centroid vector, then the
point-in-polygon test, then the line-of-sight occlusion test; every
branch of the chain writes 0 except the fully passing one, which
writes 1. -/
def visEntry (ext : ExtModel) (smallest largest res maxFow : ℚ)
    (p : Pose2D) (c : Nat × Nat) : Nat :=
  if rangeGate (normSq (poseToNeighbor p c)) smallest largest res then
    if angleLe (angleOf ext (clampQuotient
        (quotientRaw ext (ext.rotMid p.theta) (poseToNeighbor p c)))) maxFow then
      if ext.inPoly p c then
        if ext.hitObstacle p c then 0 else 1
      else 0
    else 0
  else 0

/-- The list of values the branch chain of source lines 243–295 writes
into the entry `V[neighbor][pose]`: each `else` arm and the innermost
`then` arm performs exactly one assignment. -/
def visEntryWrites (ext : ExtModel) (smallest largest res maxFow : ℚ)
    (p : Pose2D) (c : Nat × Nat) : List Nat :=
  if rangeGate (normSq (poseToNeighbor p c)) smallest largest res then
    if angleLe (angleOf ext (clampQuotient
        (quotientRaw ext (ext.rotMid p.theta) (poseToNeighbor p c)))) maxFow then
      if ext.inPoly p c then
        if ext.hitObstacle p c then [0] else [1]
      else [0]
    else [0]
  else [0]

/-- Source lines 199–298: the visibility matrix as a list of rows, one
row per cell center, one column per candidate pose (the source fills it
column by column — poses outer, cells inner — writing
`V.at(neighbor_index, pose_index)`; the resulting matrix is the
same). -/
def buildVrows (ext : ExtModel) (smallest largest res maxFow : ℚ)
    (cells : List (Nat × Nat)) (poses : List Pose2D) :
    List (List Nat) :=
  cells.map (fun c => poses.map (fun p => visEntry ext smallest largest res maxFow p c))

/-! ### III.1 The reweighted convex-relaxation loop
(source lines 317–361) -/

/-- The exact rational value of the IEEE-754 double
`euler_constant = std::exp(1.0)` (source line 325):
the correctly rounded double closest to Euler's number. -/
def eulerQ : ℚ := 6121026514868073 / 2251799813685248

/-- Source line 335: `int exponent = 1 + (number_of_iterations - 1)*0.1;`.
The right-hand side is computed in `double` and then truncated to `int`.
For every iteration count `k` with `1 ≤ k ≤ 201` the rounding error of
the double computation never crosses an integer (the double `0.1`
exceeds 1/10 by a relative `2⁻⁵⁴`, so `(k-1)*0.1` computed in doubles
lies in `[(k-1)/10, (k-1)/10 + 1/10)` and rounds to `(k-1)/10` exactly
at multiples of ten), so the truncated value is `1 + (k-1)/10` with
integer division. -/
def exponentAt (k : Nat) : Nat := 1 + (k - 1) / 10

/-- Source line 336:
`weight_epsilon = std::pow(1/(euler_constant-1), exponent)` — the base
`1/(e-1)` raised to the truncated integer exponent of iteration `k`. -/
def weightEpsilon (k : Nat) : ℚ := (1 / (eulerQ - 1)) ^ exponentAt k

/-- Modelled from the spec: the real-valued exponent
`1 + (k-1)·0.1` that §4.4 of the specification prescribes for the
epsilon update, kept for comparison against the source's truncated
integer exponent `exponentAt`. -/
def specEpsilonExponent (k : Nat) : ℚ := 1 + ((k : ℚ) - 1) * (1 / 10)

/-- The mutable state of the relaxation loop: the solution vector `C`,
the weight vector `W`, the recorded sparsity measures, the iteration
counter and the convergence flag (source lines 320–324). -/
structure SPPState where
  C : List ℚ
  W : List ℚ
  measures : List Nat
  iters : Nat
  converged : Bool
deriving Repr

/-- Source lines 349–358: once at least `range` measures exist, count
how many of the last `range` measures equal the most recent one
(`sparsity_measures.back()`); the sparsity has converged iff that count
equals `range`. -/
def plateauCheck (ms : List Nat) (range : Nat) : Bool :=
  if range ≤ ms.length then
    decide ((ms.reverse.take range).countP (fun m => decide (m = ms.getLastD 0)) = range)
  else false

/-- One iteration of the do-while loop of source lines 326–361:
increment the iteration counter, solve the weighted relaxation
(`solveOptimizationProblem(C, V, &W)`), update epsilon and every weight
`W[i] ← ε/(ε + C[i])`, record the sparsity measure
`|{i : C[i] ≤ 0.01}|`, and run the plateau convergence check. -/
def loopBody (ext : ExtModel) (Vrows : List (List Nat)) (n range : Nat)
    (s : SPPState) : SPPState :=
  let iters2 := s.iters + 1
  let C2 := ext.solveLP (buildProblem n (some s.W) Vrows)
  let eps := weightEpsilon iters2
  let W2 := (List.range s.W.length).map (fun i => eps / (eps + C2.getD i 0))
  let sparsity := C2.countP (fun c => decide (c ≤ 1 / 100))
  let ms2 := s.measures ++ [sparsity]
  { C := C2, W := W2, measures := ms2, iters := iters2,
    converged := s.converged || plateauCheck ms2 range }

/-- The do-while loop of source lines 326–361: run the body, then
continue while `sparsity_converged == false && number_of_iterations <= 200`.
The structural `fuel` argument only makes the recursion well-founded;
`loopGo_fuel_irrelevant` below shows that any fuel above the
source-guard bound gives the same result, so the embedding agrees with
the unbounded source loop. -/
def loopGo (ext : ExtModel) (Vrows : List (List Nat)) (n range : Nat) :
    Nat → SPPState → SPPState
  | 0, s => s
  | fuel + 1, s =>
    let s2 := loopBody ext Vrows n range s
    if s2.converged = false ∧ s2.iters ≤ 200 then
      loopGo ext Vrows n range fuel s2
    else s2

/-- Source lines 320–324: `C` starts as `n` zeroes
(`std::vector<double> C(W.size())`), `W` as `n` ones, no measures, no
iterations, not converged. -/
def initState (n : Nat) : SPPState :=
  ⟨List.replicate n 0, List.replicate n 1, [], 0, false⟩

/-- The whole relaxation phase: run the do-while loop from the fresh
state.  202 units of fuel are more than the loop guard ever allows to
be consumed (see `loopGo_fuel_irrelevant`). -/
def runLoop (ext : ExtModel) (Vrows : List (List Nat)) (n range : Nat) :
    SPPState :=
  loopGo ext Vrows n range 202 (initState n)

/-! ### III.2 Problem reduction and final solve
(source lines 363–391) -/

/-- Source lines 365–378 applied to one row: keep the entries of the
columns whose optimization variable is exactly `0.0`
(`if(*result == 0.0)`), in the original column order. -/
def selectZeros : List ℚ → List Nat → List Nat
  | c :: cs, x :: xs =>
    if c = 0 then x :: selectZeros cs xs else selectZeros cs xs
  | _, _ => []

/-- Source lines 365–381: the reduced visibility matrix — every cell
row is kept, and within each row only the columns whose relaxed value
is exactly `0.0` survive (the source gathers `V.col(j)` for those `j`
with `hconcat`, which is the same matrix column-filtered). -/
def reduceVisibilityCols (C : List ℚ) (Vrows : List (List Nat)) :
    List (List Nat) :=
  Vrows.map (fun row => selectZeros C row)

/-- Source line 365 and 372: `new_number_of_variables`, the number of
relaxed variables equal to `0.0`. -/
def countZeros (C : List ℚ) : Nat := C.countP (fun c => decide (c = 0))

/-- The `double` → `int` conversion performed by
`C[variable] = result[variable]` when `C` is the `std::vector<int>`
`C_reduced` (source lines 131–133 with `T = int`): truncation toward
zero. -/
def qTrunc (q : ℚ) : Int := if 0 ≤ q then Int.floor q else Int.ceil q

/-- Everything `getExplorationPath` has computed when it returns:
the discretized cells and candidate poses, the visibility matrix, the
final loop state, the reduced matrix, the final integer solution, and
the contents of the caller-supplied `path` output parameter. -/
structure RunResult where
  cells : List (Nat × Nat)
  poses : List Pose2D
  V : List (List Nat)
  finalState : SPPState
  VReduced : List (List Nat)
  CReduced : List Int
  path : List Pose2D
deriving Repr

/-- The function `convexSPPExplorator::getExplorationPath` (source lines 163–391):
discretize the map into free cells and candidate poses, build the
visibility matrix, run the reweighted relaxation loop, reduce the
problem to the columns with relaxed value `0.0`, and solve the reduced
problem as an unweighted integer program.  The function then returns:
no statement of the source ever assigns to the `path` output
parameter (the body ends at the final solve with a TODO), so the
caller's `path` is returned unchanged. -/
def getExplorationPath (ext : ExtModel) (roomMap : Nat → Nat → Nat)
    (minX minY maxX maxY cellSize : Nat) (deltaTheta twoPi : ℚ)
    (smallest largest res maxFow : ℚ) (range : Nat)
    (path : List Pose2D) : RunResult :=
  let cells := cellCenters roomMap minX minY maxX maxY cellSize
  let poses := candidatePoses cells (angleList deltaTheta twoPi)
  let Vrows := buildVrows ext smallest largest res maxFow cells poses
  let final := runLoop ext Vrows poses.length range
  let VRed := reduceVisibilityCols final.C Vrows
  let nRed := countZeros final.C
  let CRed := (List.range nRed).map (fun i =>
    qTrunc ((ext.solveLP (buildProblem nRed none VRed)).getD i 0))
  { cells := cells, poses := poses, V := Vrows, finalState := final,
    VReduced := VRed, CReduced := CRed, path := path }

/-! ### Helper lemmas about the relaxation loop -/

theorem loopBody_iters (ext : ExtModel) (Vrows : List (List Nat))
    (n range : Nat) (s : SPPState) :
    (loopBody ext Vrows n range s).iters = s.iters + 1 := rfl

theorem loopBody_measures_length (ext : ExtModel) (Vrows : List (List Nat))
    (n range : Nat) (s : SPPState) :
    (loopBody ext Vrows n range s).measures.length = s.measures.length + 1 := by
  simp [loopBody]

theorem loopBody_converged (ext : ExtModel) (Vrows : List (List Nat))
    (n range : Nat) (s : SPPState) :
    (loopBody ext Vrows n range s).converged
      = (s.converged || plateauCheck (loopBody ext Vrows n range s).measures range) := by
  simp [loopBody]

/-- The structural fuel of `loopGo` is semantically irrelevant: the
source's loop guard `number_of_iterations <= 200` stops the recursion
after at most `201 - iters` further calls, so any two fuels above that
bound give the same result.  The embedding therefore agrees with the
unbounded do-while loop of the source. -/
theorem loopGo_fuel_irrelevant (ext : ExtModel) (Vrows : List (List Nat))
    (n range : Nat) :
    ∀ f g : Nat, ∀ s : SPPState, 201 - s.iters < f → 201 - s.iters < g →
      loopGo ext Vrows n range f s = loopGo ext Vrows n range g s := by
  intro f
  induction f with
  | zero => intro g s hf; omega
  | succ f ih =>
    intro g s hf hg
    match g, hg with
    | g + 1, hg =>
      show (let s2 := loopBody ext Vrows n range s
            if s2.converged = false ∧ s2.iters ≤ 200 then
              loopGo ext Vrows n range f s2 else s2)
         = (let s2 := loopBody ext Vrows n range s
            if s2.converged = false ∧ s2.iters ≤ 200 then
              loopGo ext Vrows n range g s2 else s2)
      by_cases h : (loopBody ext Vrows n range s).converged = false
          ∧ (loopBody ext Vrows n range s).iters ≤ 200
      · simp only [h, if_true]
        have hi : (loopBody ext Vrows n range s).iters = s.iters + 1 :=
          loopBody_iters ..
        exact ih g (loopBody ext Vrows n range s)
          (by omega) (by omega)
      · simp only [h, if_false]

/-- From any state the loop can add at most one iteration past the
guard bound: the result's iteration counter is at most
`max (s.iters + 1) 201`. -/
theorem loopGo_iters_le (ext : ExtModel) (Vrows : List (List Nat))
    (n range : Nat) :
    ∀ f : Nat, ∀ s : SPPState, s.iters ≤ 200 →
      (loopGo ext Vrows n range f s).iters ≤ 201 := by
  intro f
  induction f with
  | zero => intro s hs; simpa [loopGo] using by omega
  | succ f ih =>
    intro s hs
    show (let s2 := loopBody ext Vrows n range s
          if s2.converged = false ∧ s2.iters ≤ 200 then
            loopGo ext Vrows n range f s2 else s2).iters ≤ 201
    by_cases h : (loopBody ext Vrows n range s).converged = false
        ∧ (loopBody ext Vrows n range s).iters ≤ 200
    · simp only [h, if_true]
      exact ih _ h.2
    · simp only [h, if_false]
      have := loopBody_iters ext Vrows n range s
      omega

/-- When the required plateau length exceeds 201 the convergence check
can never fire (at most 201 measures are ever recorded), so the loop
exits through the iteration guard with exactly 201 iterations
performed. -/
theorem loopGo_exhausts_when_range_too_large (ext : ExtModel)
    (Vrows : List (List Nat)) (n range : Nat) (hr : 201 < range) :
    ∀ f : Nat, ∀ s : SPPState,
      s.measures.length = s.iters → s.converged = false → s.iters ≤ 200 →
      201 - s.iters < f →
      (loopGo ext Vrows n range f s).iters = 201 := by
  intro f
  induction f with
  | zero => intro s _ _ _ hf; omega
  | succ f ih =>
    intro s hlen hconv hle hf
    show (let s2 := loopBody ext Vrows n range s
          if s2.converged = false ∧ s2.iters ≤ 200 then
            loopGo ext Vrows n range f s2 else s2).iters = 201
    have hi : (loopBody ext Vrows n range s).iters = s.iters + 1 :=
      loopBody_iters ..
    have hl : (loopBody ext Vrows n range s).measures.length
        = s.measures.length + 1 := loopBody_measures_length ..
    have hc : (loopBody ext Vrows n range s).converged = false := by
      rw [loopBody_converged, hconv, Bool.false_or]
      unfold plateauCheck
      rw [if_neg]
      omega
    by_cases h2 : (loopBody ext Vrows n range s).iters ≤ 200
    · have hguard : (loopBody ext Vrows n range s).converged = false
          ∧ (loopBody ext Vrows n range s).iters ≤ 200 := ⟨hc, h2⟩
      simp only [hguard, if_true]
      exact ih _ (by omega) hc h2 (by omega)
    · have hguard : ¬ ((loopBody ext Vrows n range s).converged = false
          ∧ (loopBody ext Vrows n range s).iters ≤ 200) := by
        intro h; exact h2 h.2
      simp only [hguard, if_false]
      omega

/-- A concrete instantiation of the external collaborators, used to
exercise the planner on closed inputs: the solver returns the all-zero
vector of the right length for relaxed problems and selects the first
variable for integer problems; the geometric callbacks accept
everything. -/
def constExt : ExtModel :=
  { sqrtFn := fun q => q
    acosFn := fun _ => 0
    rotMid := fun _ => (1, 0)
    inPoly := fun _ _ => true
    hitObstacle := fun _ _ => false
    solveLP := fun p =>
      if p.integer then
        match p.costs.length with
        | 0 => []
        | m + 1 => 1 :: List.replicate m 0
      else List.replicate p.costs.length 0 }

/-- Claim C2, counterexample.  The claim caps the loop at 200 iterations,
but the do-while guard `number_of_iterations <= 200` is tested after
the increment, so a run that never converges performs 201 relaxed
solves: with a plateau requirement of 300 (convergence then being
unreachable) the loop exits with `number_of_iterations = 201`. -/
theorem c2_iteration_count_201 :
    (runLoop constExt [[1]] 1 300).iters = 201 := by
  unfold runLoop
  exact loopGo_exhausts_when_range_too_large constExt [[1]] 1 300
    (by omega) 202 (initState 1) rfl rfl (by simp [initState]) (by simp [initState])

/-- Claim C2, amended.  The reweighting loop of `getExplorationPath`
performs at most 201 relaxed-solve iterations for every input: the
do-while guard `number_of_iterations <= 200` is checked after the
counter is incremented, so the worst case is 201, not 200. -/
theorem c2_iteration_bound (ext : ExtModel) (Vrows : List (List Nat))
    (n range : Nat) : (runLoop ext Vrows n range).iters ≤ 201 := by
  unfold runLoop
  exact loopGo_iters_le ext Vrows n range 202 (initState n) (by simp [initState])

/-- Claim C3, counterexample.  The claim says the epsilon exponent is the
real value `1 + (k-1)·0.1`, making epsilon strictly change every
iteration.  The source stores the exponent in an `int`
(`int exponent = 1 + (number_of_iterations - 1)*0.1;`), truncating it:
at iteration 2 the exponent used is 1, not 1.1, and the epsilon term of
iteration 2 equals that of iteration 1. -/
theorem c3_epsilon_unchanged_at_iteration_2 :
    weightEpsilon 2 = weightEpsilon 1
      ∧ ((exponentAt 2 : ℚ) ≠ specEpsilonExponent 2) := by
  constructor
  · rfl
  · show ((1 : ℚ) ≠ _)
    norm_num [specEpsilonExponent]

/-- Claim C3, amended.  The epsilon exponent is the integer truncation
`1 + (k-1)/10` of the claimed real value, so the epsilon term is
constant across each block of ten consecutive iterations and changes
exactly when the iteration counter crosses a multiple of ten. -/
theorem c3_epsilon_truncated_exponent (k : Nat) (hk : 1 ≤ k) :
    weightEpsilon (k + 1) = weightEpsilon k ↔ ¬ (k % 10 = 0) := by
  have hb0 : (0 : ℚ) < 1 / (eulerQ - 1) := by norm_num [eulerQ]
  have hb1 : (1 : ℚ) / (eulerQ - 1) < 1 := by norm_num [eulerQ]
  constructor
  · intro h hmod
    have he : exponentAt k < exponentAt (k + 1) := by
      unfold exponentAt; omega
    have hlt := pow_lt_pow_right_of_lt_one₀ hb0 hb1 he
    exact (ne_of_lt hlt) (by simpa [weightEpsilon] using h)
  · intro hmod
    have he : exponentAt (k + 1) = exponentAt k := by
      unfold exponentAt; omega
    rw [weightEpsilon, weightEpsilon, he]

/-- Witness for `c3_epsilon_truncated_exponent` at `k = 3`. -/
theorem c3_epsilon_truncated_exponent_witness :
    1 ≤ 3 ∧ (weightEpsilon 4 = weightEpsilon 3 ↔ ¬ (3 % 10 = 0)) :=
  ⟨by omega, c3_epsilon_truncated_exponent 3 (by omega)⟩

/-! ### Helper lemmas about the convergence check -/

theorem getElem_mem_drop {α : Type} (l : List α) (k i : Nat)
    (hki : k ≤ i) (hi : i < l.length) : l[i] ∈ l.drop k := by
  have h2 : i - k < (l.drop k).length := by
    rw [List.length_drop]; omega
  have h3 : (l.drop k)[i - k] = l[i] := by
    rw [List.getElem_drop]; congr 1; omega
  rw [← h3]
  exact List.getElem_mem h2

/-- The convergence check of source lines 349–358 in closed form: the
counting loop over the reversed measure vector succeeds exactly when at
least `range` measures exist and the last `range` of them all equal the
most recent one. -/
theorem plateauCheck_iff (ms : List Nat) (r : Nat) :
    plateauCheck ms r = true ↔
      (r ≤ ms.length ∧ ∀ m ∈ ms.drop (ms.length - r), m = ms.getLastD 0) := by
  unfold plateauCheck
  by_cases h : r ≤ ms.length
  · rw [if_pos h]
    have hwin : ms.reverse.take r = (ms.drop (ms.length - r)).reverse :=
      List.take_reverse
    have hlen : (ms.reverse.take r).length = r := by
      rw [List.length_take, List.length_reverse]; omega
    simp only [decide_eq_true_eq]
    constructor
    · intro hc
      refine ⟨h, fun m hm => ?_⟩
      have hall := List.countP_eq_length.mp (hc.trans hlen.symm)
      have hmem : m ∈ ms.reverse.take r := by
        rw [hwin, List.mem_reverse]; exact hm
      simpa using hall m hmem
    · rintro ⟨-, hall⟩
      refine (List.countP_eq_length.mpr fun a ha => ?_).trans hlen
      rw [hwin, List.mem_reverse] at ha
      simpa using hall a ha
  · rw [if_neg h]
    simp [h]

/-- The plateau scenario: a measure sequence that is a prefix `p` (whose
last element differs from the plateau value `v`) followed by `j` copies
of `v` passes the convergence check exactly when the plateau has grown
to the full required length `j = r`. -/
theorem plateauCheck_plateau (r : Nat) (p : List Nat) (v j : Nat)
    (hj1 : 1 ≤ j) (hjr : j ≤ r) (hp : p.getLastD (v + 1) ≠ v) :
    (plateauCheck (p ++ List.replicate j v) r = true ↔ j = r) := by
  rw [plateauCheck_iff]
  have hlastv : (p ++ List.replicate j v).getLastD 0 = v := by
    match j, hj1 with
    | j' + 1, _ =>
      rw [List.replicate_succ', ← List.append_assoc, List.getLastD_concat]
  have hlen : (p ++ List.replicate j v).length = p.length + j := by
    rw [List.length_append, List.length_replicate]
  constructor
  · rintro ⟨hr, hall⟩
    by_contra hne
    have hjlt : j < r := lt_of_le_of_ne hjr hne
    have hpl : r - j ≤ p.length := by omega
    have hpne : p ≠ [] := by
      intro h0; rw [h0] at hpl; simp at hpl; omega
    have hidx : p.length - 1 < (p ++ List.replicate j v).length := by
      rw [hlen]; omega
    have hidx2 : p.length - 1 < p.length := by
      have := List.length_pos.mpr hpne; omega
    have hmem : (p ++ List.replicate j v)[p.length - 1] ∈
        (p ++ List.replicate j v).drop
          ((p ++ List.replicate j v).length - r) := by
      exact getElem_mem_drop _ _ _ (by rw [hlen]; omega) hidx
    have heq := hall _ hmem
    rw [hlastv] at heq
    rw [List.getElem_append_left hidx2] at heq
    have hgl : p.getLastD (v + 1) = p[p.length - 1] := by
      rw [List.getLastD_eq_getLast? , List.getLast?_eq_getLast p hpne,
        Option.getD_some, List.getLast_eq_getElem]
    exact hp (by rw [hgl, heq])
  · intro hjr2
    subst hjr2
    refine ⟨by omega, fun m hm => ?_⟩
    rw [hlastv]
    rw [hlen, Nat.add_sub_cancel, List.drop_left] at hm
    exact List.eq_of_mem_replicate hm

/-- Claim C6.  The scheduler declares convergence exactly when at least
`sparsity_check_range` measurements exist and the last
`sparsity_check_range` of them all equal the most recent one (the loop
runs `plateauCheck` on the appended measure vector each iteration, see
`loopBody`); and on a sequence with a trailing constant plateau the
check first succeeds at the iteration completing the plateau, never
earlier. -/
theorem c6_convergence_iff_plateau (ms : List Nat) (r : Nat)
    (p : List Nat) (v j : Nat) (hj1 : 1 ≤ j) (hjr : j ≤ r)
    (hp : p.getLastD (v + 1) ≠ v) :
    (plateauCheck ms r = true ↔
        (r ≤ ms.length ∧ ∀ m ∈ ms.drop (ms.length - r), m = ms.getLastD 0))
    ∧ (plateauCheck (p ++ List.replicate j v) r = true ↔ j = r) :=
  ⟨plateauCheck_iff ms r, plateauCheck_plateau r p v j hj1 hjr hp⟩

/-- Witness for `c6_convergence_iff_plateau`: range 2, prefix `[9]`,
plateau value 4 of length 2. -/
theorem c6_convergence_iff_plateau_witness :
    (1 ≤ 2 ∧ 2 ≤ 2 ∧ List.getLastD [9] (4 + 1) ≠ 4)
    ∧ ((plateauCheck [3, 3] 2 = true ↔
        (2 ≤ [3, 3].length ∧
          ∀ m ∈ [3, 3].drop ([3, 3].length - 2), m = [3, 3].getLastD 0))
      ∧ (plateauCheck ([9] ++ List.replicate 2 4) 2 = true ↔ 2 = 2)) :=
  ⟨⟨by omega, by omega, by decide⟩,
    c6_convergence_iff_plateau [3, 3] 2 [9] 4 2 (by omega) (by omega) (by decide)⟩

/-! ### Helper lemmas about the reduction and the visibility entries -/

/-- The column-discarding loop of source lines 367–378, applied to one
row, keeps exactly the entries paired with a relaxed value of `0.0`, in
their original order. -/
theorem selectZeros_eq_filter (C : List ℚ) :
    ∀ row : List Nat,
      selectZeros C row
        = ((C.zip row).filter (fun q => decide (q.1 = 0))).map Prod.snd := by
  induction C with
  | nil => intro row; cases row <;> rfl
  | cons c cs ih =>
    intro row
    cases row with
    | nil => rfl
    | cons x xs =>
      by_cases hc : c = 0
      · simp [selectZeros, hc, List.filter_cons, ih xs]
      · simp [selectZeros, hc, List.filter_cons, ih xs]

/-- Every visibility entry is 0 or 1. -/
theorem visEntry_binary (ext : ExtModel) (smallest largest res maxFow : ℚ)
    (p : Pose2D) (c : Nat × Nat) :
    visEntry ext smallest largest res maxFow p c = 0
      ∨ visEntry ext smallest largest res maxFow p c = 1 := by
  cases hr : rangeGate (normSq (poseToNeighbor p c)) smallest largest res <;>
    cases ha : angleLe (angleOf ext (clampQuotient
        (quotientRaw ext (ext.rotMid p.theta) (poseToNeighbor p c)))) maxFow <;>
    cases hi : ext.inPoly p c <;>
    cases ho : ext.hitObstacle p c <;>
    simp [visEntry, hr, ha, hi, ho]

/-- The branch chain of the visibility test writes the entry exactly
once, with the value `visEntry` computes. -/
theorem visEntryWrites_single (ext : ExtModel)
    (smallest largest res maxFow : ℚ) (p : Pose2D) (c : Nat × Nat) :
    visEntryWrites ext smallest largest res maxFow p c
      = [visEntry ext smallest largest res maxFow p c] := by
  cases hr : rangeGate (normSq (poseToNeighbor p c)) smallest largest res <;>
    cases ha : angleLe (angleOf ext (clampQuotient
        (quotientRaw ext (ext.rotMid p.theta) (poseToNeighbor p c)))) maxFow <;>
    cases hi : ext.inPoly p c <;>
    cases ho : ext.hitObstacle p c <;>
    simp [visEntry, visEntryWrites, hr, ha, hi, ho]

/-- Claim C7.  The problem reduction keeps, within every row, exactly the
columns whose relaxed value is exactly `0.0`, in their original order;
it keeps every cell row (`reduceVisibilityCols` has the same number of
rows as the original matrix); and the problem built for the final solve
(`getExplorationPath` passes `W = none` next, mirroring
`solveOptimizationProblem(C_reduced, V_reduced, NULL)`) is an integer
program with unit costs. -/
theorem c7_reduction_consistency (C : List ℚ) (Vrows : List (List Nat)) :
    reduceVisibilityCols C Vrows
        = Vrows.map (fun row =>
            ((C.zip row).filter (fun q => decide (q.1 = 0))).map Prod.snd)
    ∧ (reduceVisibilityCols C Vrows).length = Vrows.length
    ∧ (buildProblem (countZeros C) none (reduceVisibilityCols C Vrows)).integer
        = true
    ∧ (buildProblem (countZeros C) none (reduceVisibilityCols C Vrows)).costs
        = List.replicate (countZeros C) 1 := by
  refine ⟨?_, by simp [reduceVisibilityCols], rfl, rfl⟩
  unfold reduceVisibilityCols
  exact List.map_congr_left fun row _ => selectZeros_eq_filter C row

/-- Claim C8.  Both geometric gates of the visibility test are
boundary-inclusive: a cell at squared distance exactly
`(largest_robot_to_fow_distance/map_resolution)²` — i.e. exactly at the
maximum sensing radius in pixels — passes the range gate, and an angle
exactly equal to `max_fow_angle` passes the angle gate; both
comparisons in the source are `<=`/`>=`, not strict. -/
theorem c8_boundary_inclusive (smallest largest res maxFow : ℚ)
    (h0 : 0 ≤ smallest) (h1 : smallest ≤ largest) (h2 : 0 < res) :
    rangeGate ((largest / res) ^ 2) smallest largest res = true
    ∧ angleLe (some maxFow) maxFow = true := by
  constructor
  · have hs : 0 ≤ smallest / res := div_nonneg h0 h2.le
    have hl : 0 ≤ largest / res := div_nonneg (h0.trans h1) h2.le
    have hsl : smallest / res ≤ largest / res :=
      div_le_div_of_nonneg_right h1 h2.le
    have hsq : (smallest / res) ^ 2 ≤ (largest / res) ^ 2 :=
      pow_le_pow_left₀ hs hsl 2
    simp [rangeGate, hsq, hl]
  · simp [angleLe]

/-- Witness for `c8_boundary_inclusive` at `smallest = 1`,
`largest = 2`, `res = 1`, `maxFow = 3`. -/
theorem c8_boundary_inclusive_witness :
    ((0 : ℚ) ≤ 1 ∧ (1 : ℚ) ≤ 2 ∧ (0 : ℚ) < 1)
    ∧ (rangeGate (((2 : ℚ) / 1) ^ 2) 1 2 1 = true
        ∧ angleLe (some 3) 3 = true) :=
  ⟨⟨by norm_num, by norm_num, by norm_num⟩,
    c8_boundary_inclusive 1 2 1 3 (by norm_num) (by norm_num) (by norm_num)⟩

/-- A vanishing norm product makes the quotient NaN, the NaN survives
the clamp and `acos`, every comparison with it is false, and the cell
is marked 0. -/
theorem visEntry_nan_zero (ext : ExtModel) (p : Pose2D)
    (c : Nat × Nat) (smallest largest res maxFow : ℚ)
    (h : normSq (ext.rotMid p.theta) * normSq (poseToNeighbor p c) = 0) :
    visEntry ext smallest largest res maxFow p c = 0 := by
  simp [visEntry, quotientRaw, h, clampQuotient, angleOf, angleLe]

/-- Claim C9, counterexample.  The division `dot/abs` of source line 258
is not special-cased: at a candidate pose placed on the very cell under
test (reachable whenever the minimum sensing radius is 0, since the
range gate then passes at distance 0), the norm product is exactly zero,
the quotient is NaN (embedded `none`), the clamp of source lines
259–262 leaves it unchanged, and this non-finite value is fed into the
angle comparison. -/
theorem c9_nan_reaches_angle_comparison :
    clampQuotient (quotientRaw constExt
        (constExt.rotMid (Pose2D.mk 5 5 0).theta)
        (poseToNeighbor (Pose2D.mk 5 5 0) (5, 5))) = none
    ∧ rangeGate (normSq (poseToNeighbor (Pose2D.mk 5 5 0) (5, 5))) 0 10 1
        = true := by
  constructor
  · norm_num [quotientRaw, clampQuotient, constExt, poseToNeighbor, normSq]
  · norm_num [rangeGate, poseToNeighbor, normSq]

/-- Claim C9, amended.  The zero-denominator division is not
special-cased; instead the NaN quotient it produces propagates through
the clamp and `acos` into the angle comparison, where every comparison
with NaN is false, so the affected cell is marked 0 (not observable)
rather than corrupting the matrix with a spurious 1. -/
theorem c9_zero_denominator_marks_cell_zero (ext : ExtModel) (p : Pose2D)
    (c : Nat × Nat) (smallest largest res maxFow : ℚ)
    (h : normSq (ext.rotMid p.theta) * normSq (poseToNeighbor p c) = 0) :
    visEntry ext smallest largest res maxFow p c = 0 :=
  visEntry_nan_zero ext p c smallest largest res maxFow h

/-- Witness for `c9_zero_denominator_marks_cell_zero`: the pose sitting
on its own cell. -/
theorem c9_zero_denominator_marks_cell_zero_witness :
    normSq (constExt.rotMid (Pose2D.mk 5 5 0).theta)
        * normSq (poseToNeighbor (Pose2D.mk 5 5 0) (5, 5)) = 0
    ∧ visEntry constExt 0 10 1 1 (Pose2D.mk 5 5 0) (5, 5) = 0 :=
  ⟨by norm_num [constExt, poseToNeighbor, normSq],
    c9_zero_denominator_marks_cell_zero constExt (Pose2D.mk 5 5 0) (5, 5)
      0 10 1 1 (by norm_num [constExt, poseToNeighbor, normSq])⟩

/-- Claim C10.  Every entry of the visibility matrix is written by
exactly one branch of the per-cell test (the write list of the branch
chain is a singleton, holding exactly the computed entry), the computed
value is always 0 or 1, and the built matrix covers every
(cell, candidate-pose) pair: one row per cell, one entry per pose, all
binary — no entry is left unwritten. -/
theorem c10_matrix_total_binary (ext : ExtModel)
    (smallest largest res maxFow : ℚ) (cells : List (Nat × Nat))
    (poses : List Pose2D) (p : Pose2D) (c : Nat × Nat) :
    visEntryWrites ext smallest largest res maxFow p c
        = [visEntry ext smallest largest res maxFow p c]
    ∧ (visEntry ext smallest largest res maxFow p c = 0
        ∨ visEntry ext smallest largest res maxFow p c = 1)
    ∧ (buildVrows ext smallest largest res maxFow cells poses).length
        = cells.length
    ∧ ∀ row ∈ buildVrows ext smallest largest res maxFow cells poses,
        row.length = poses.length ∧ ∀ x ∈ row, x = 0 ∨ x = 1 := by
  refine ⟨visEntryWrites_single .., visEntry_binary .., by simp [buildVrows], ?_⟩
  intro row hrow
  rw [buildVrows, List.mem_map] at hrow
  obtain ⟨cc, -, rfl⟩ := hrow
  refine ⟨by simp, ?_⟩
  intro x hx
  rw [List.mem_map] at hx
  obtain ⟨pp, -, rfl⟩ := hx
  exact visEntry_binary ext smallest largest res maxFow pp cc

/-- When the convergence flag is already set after the first iteration,
the do-while loop exits immediately: the run is a single body
execution. -/
theorem runLoop_first_converged (ext : ExtModel) (Vrows : List (List Nat))
    (n range : Nat)
    (h : (loopBody ext Vrows n range (initState n)).converged = true) :
    runLoop ext Vrows n range = loopBody ext Vrows n range (initState n) := by
  show (let s2 := loopBody ext Vrows n range (initState n)
        if s2.converged = false ∧ s2.iters ≤ 200 then
          loopGo ext Vrows n range 201 s2 else s2)
      = loopBody ext Vrows n range (initState n)
  simp [h]

/-- The planner run on a 1×2 strip of free pixels (two cells, one
candidate pose each), with the all-accepting external model: each pose
observes exactly the other cell. -/
def run1 : RunResult :=
  getExplorationPath constExt (fun _ _ => 255) 0 0 1 0 1 7 (628 / 100)
    0 10 1 1 1 []

/-- The planner run on a single free pixel: the unique candidate pose
sits on the unique cell, whose visibility row is then all-zero (the
zero-length pose-to-cell vector makes the angle NaN). -/
def run4 : RunResult :=
  getExplorationPath constExt (fun _ _ => 255) 0 0 0 0 1 7 (628 / 100)
    0 10 1 1 1 []

/-- The planner run on a fully occupied map: zero free cells. -/
def run5 : RunResult :=
  getExplorationPath constExt (fun _ _ => 0) 0 0 0 0 1 7 (628 / 100)
    0 10 1 1 1 []

theorem cells_strip : cellCenters (fun _ _ => 255) 0 0 1 0 1
    = [(0, 0), (1, 0)] := by decide

theorem cells_single : cellCenters (fun _ _ => 255) 0 0 0 0 1
    = [(0, 0)] := by decide

theorem cells_occupied : cellCenters (fun _ _ => 0) 0 0 0 0 1 = [] := by
  decide

theorem angles_single : angleList 7 (628 / 100) = [0] := by
  rw [angleList, if_pos (by norm_num)]
  have h : Nat.ceil ((628 : ℚ) / 100 / 7) = 1 := by
    rw [Nat.ceil_eq_iff (by omega)]
    constructor <;> norm_num
  rw [h]
  norm_num [List.range_succ]

theorem poses_strip : candidatePoses [(0, 0), (1, 0)] [0]
    = [⟨0, 0, 0⟩, ⟨1, 0, 0⟩] := by
  norm_num [candidatePoses]

theorem poses_single : candidatePoses [(0, 0)] [0] = [⟨0, 0, 0⟩] := by
  norm_num [candidatePoses]

theorem visEntry_self_zero (p : Pose2D) (c : Nat × Nat)
    (hx : p.x = (c.1 : ℚ)) (hy : p.y = (c.2 : ℚ)) (ext : ExtModel)
    (smallest largest res maxFow : ℚ) :
    visEntry ext smallest largest res maxFow p c = 0 := by
  apply visEntry_nan_zero
  simp [normSq, poseToNeighbor, hx, hy]

theorem visEntry_sees_strip_right :
    visEntry constExt 0 10 1 1 ⟨0, 0, 0⟩ (1, 0) = 1 := by
  norm_num [visEntry, rangeGate, quotientRaw, clampQuotient, angleOf,
    angleLe, poseToNeighbor, normSq, dot2, constExt]

theorem visEntry_sees_strip_left :
    visEntry constExt 0 10 1 1 ⟨1, 0, 0⟩ (0, 0) = 1 := by
  norm_num [visEntry, rangeGate, quotientRaw, clampQuotient, angleOf,
    angleLe, poseToNeighbor, normSq, dot2, constExt]

theorem buildV_strip :
    buildVrows constExt 0 10 1 1 [(0, 0), (1, 0)] [⟨0, 0, 0⟩, ⟨1, 0, 0⟩]
      = [[0, 1], [1, 0]] := by
  show [[visEntry constExt 0 10 1 1 ⟨0, 0, 0⟩ (0, 0),
          visEntry constExt 0 10 1 1 ⟨1, 0, 0⟩ (0, 0)],
        [visEntry constExt 0 10 1 1 ⟨0, 0, 0⟩ (1, 0),
          visEntry constExt 0 10 1 1 ⟨1, 0, 0⟩ (1, 0)]] = [[0, 1], [1, 0]]
  rw [visEntry_self_zero ⟨0, 0, 0⟩ (0, 0) (by norm_num) (by norm_num),
    visEntry_self_zero ⟨1, 0, 0⟩ (1, 0) (by norm_num) (by norm_num),
    visEntry_sees_strip_right, visEntry_sees_strip_left]

theorem buildV_single :
    buildVrows constExt 0 10 1 1 [(0, 0)] [⟨0, 0, 0⟩] = [[0]] := by
  show [[visEntry constExt 0 10 1 1 ⟨0, 0, 0⟩ (0, 0)]] = [[0]]
  rw [visEntry_self_zero ⟨0, 0, 0⟩ (0, 0) (by norm_num) (by norm_num)]

theorem loop_strip_converged :
    (loopBody constExt [[0, 1], [1, 0]] 2 1 (initState 2)).converged
      = true := by
  norm_num [loopBody, initState, constExt, buildProblem, plateauCheck,
    List.countP_cons, List.range_succ]

theorem loop_strip_C : (runLoop constExt [[0, 1], [1, 0]] 2 1).C
    = [0, 0] := by
  rw [runLoop_first_converged _ _ _ _ loop_strip_converged]
  norm_num [loopBody, initState, constExt, buildProblem, List.range_succ,
    List.replicate_succ]

theorem loop_single_converged :
    (loopBody constExt [[0]] 1 1 (initState 1)).converged = true := by
  norm_num [loopBody, initState, constExt, buildProblem, plateauCheck,
    List.countP_cons, List.range_succ]

theorem loop_single_iters : (runLoop constExt [[0]] 1 1).iters = 1 := by
  rw [runLoop_first_converged _ _ _ _ loop_single_converged]
  rfl

theorem loop_empty_converged :
    (loopBody constExt [] 0 1 (initState 0)).converged = true := by
  norm_num [loopBody, initState, constExt, buildProblem, plateauCheck,
    List.countP_cons]

theorem loop_empty_iters : (runLoop constExt [] 0 1).iters = 1 := by
  rw [runLoop_first_converged _ _ _ _ loop_empty_converged]
  rfl

/-- Claim C1.  The claim says the selected candidate poses — those with
value 1 in the final integer solution — are written to the
caller-supplied `path` output parameter.  The source never assigns to
`path`: on the two-cell strip the final integer solution selects the
first candidate pose (`CReduced = [1, 0]`), yet the caller's initially
empty `path` is still empty when `getExplorationPath` returns (the
function body ends at the final solve, at a TODO, without producing the
output). -/
theorem c1_path_parameter_never_written :
    run1.CReduced = [1, 0] ∧ run1.path = [] := by
  constructor
  · simp only [run1, getExplorationPath]
    rw [cells_strip, angles_single, poses_strip, buildV_strip]
    simp only [List.length_cons, List.length_nil]
    norm_num
    rw [loop_strip_C]
    norm_num [countZeros, reduceVisibilityCols, selectZeros, buildProblem,
      constExt, qTrunc, List.range_succ, List.countP_cons]
  · rfl

/-- Claim C4.  On a single free cell the unique candidate pose stands on
the cell itself, so the cell's visibility row is all-zero; the claim
says planning must then raise `InfeasibleCoverageError` naming the
cell.  The source performs no such check (its own TODO at line 390
admits it): the covering constraint built for the cell is empty —
`onesIndices` of the all-zero row lists no variables, giving the
infeasible constraint `0 ≥ 1` — and the run nevertheless completes
normally after one iteration with the `path` parameter untouched. -/
theorem c4_all_zero_row_completes_without_error :
    run4.V = [[0]] ∧ (buildProblem 1 none run4.V).rows = [[]]
    ∧ run4.finalState.iters = 1 ∧ run4.path = [] := by
  have hV : run4.V = [[0]] := by
    simp only [run4, getExplorationPath]
    rw [cells_single, angles_single, poses_single, buildV_single]
  refine ⟨hV, ?_, ?_, rfl⟩
  · rw [hV]
    norm_num [buildProblem, onesIndices, List.range_succ]
  · simp only [run4, getExplorationPath]
    rw [cells_single, angles_single, poses_single, buildV_single]
    simp only [List.length_cons, List.length_nil]
    norm_num
    exact loop_single_iters

/-- Claim C5, counterexample.  The claim says a region with zero free
cells makes `getExplorationPath` fail with `EmptyRegionError` instead
of proceeding with planning.  On a fully occupied map the
discretization yields no cell, yet the source has no such check:
planning proceeds — the relaxation loop runs (one iteration) over the
empty problem and the function returns normally. -/
theorem c5_empty_region_no_error :
    run5.cells = [] ∧ run5.finalState.iters = 1 := by
  constructor
  · simp only [run5, getExplorationPath]
    exact cells_occupied
  · simp only [run5, getExplorationPath]
    rw [cells_occupied, angles_single]
    show (runLoop constExt (buildVrows constExt 0 10 1 1 []
        (candidatePoses [] [0])) (candidatePoses [] [0]).length 1).iters = 1
    simp only [candidatePoses, List.flatMap_nil, buildVrows, List.map_nil,
      List.length_nil]
    exact loop_empty_iters

/-- Claim C5, amended.  `getExplorationPath` performs no empty-region
check: when the discretization yields zero free cells it does not fail
but proceeds with an empty candidate set and an empty visibility
matrix, and returns with the `path` parameter unchanged. -/
theorem c5_empty_region_proceeds (ext : ExtModel)
    (roomMap : Nat → Nat → Nat) (minX minY maxX maxY cellSize : Nat)
    (deltaTheta twoPi smallest largest res maxFow : ℚ) (range : Nat)
    (path : List Pose2D)
    (h : cellCenters roomMap minX minY maxX maxY cellSize = []) :
    (getExplorationPath ext roomMap minX minY maxX maxY cellSize
        deltaTheta twoPi smallest largest res maxFow range path).poses = []
    ∧ (getExplorationPath ext roomMap minX minY maxX maxY cellSize
        deltaTheta twoPi smallest largest res maxFow range path).V = []
    ∧ (getExplorationPath ext roomMap minX minY maxX maxY cellSize
        deltaTheta twoPi smallest largest res maxFow range path).path
        = path := by
  refine ⟨?_, ?_, rfl⟩ <;>
    simp [getExplorationPath, h, candidatePoses, buildVrows]

/-- Witness for `c5_empty_region_proceeds` on the fully occupied
map. -/
theorem c5_empty_region_proceeds_witness :
    cellCenters (fun _ _ => 0) 0 0 0 0 1 = []
    ∧ ((getExplorationPath constExt (fun _ _ => 0) 0 0 0 0 1 7 (628 / 100)
          0 10 1 1 1 []).poses = []
      ∧ (getExplorationPath constExt (fun _ _ => 0) 0 0 0 0 1 7 (628 / 100)
          0 10 1 1 1 []).V = []
      ∧ (getExplorationPath constExt (fun _ _ => 0) 0 0 0 0 1 7 (628 / 100)
          0 10 1 1 1 []).path = []) :=
  ⟨by decide, c5_empty_region_proceeds constExt (fun _ _ => 0) 0 0 0 0 1 7
    (628 / 100) 0 10 1 1 1 [] (by decide)⟩

end ConvexSPP
